import Mathlib

/-!
Shallow embedding of `src/webapp_downloader/static/script.js`: the client-side
download-session orchestration (Strategy B polling client).  JS values that may
be `undefined`, booleans, strings or numbers are modelled by `JsVal`; the DOM
elements touched by the script by `UIState`; the global `pollInterval` variable
together with the set of scheduled interval timers by fields of `AppState`.
Network requests issued by the script are recorded in `AppState.requests`;
the transport outcome of a `fetch` (including a thrown exception from the
request or from `res.json()`) is an input of type `FetchResult`.
-/

/-- A dynamically typed JS value as it appears in the JSON fields the script
reads (`data.error`, `data.status`, `data.file_name`). -/
inductive JsVal where
  | undef
  | boolV (b : Bool)
  | strV (s : String)
  | numV (n : Int)
deriving DecidableEq

/-- JS truthiness: `undefined`, `false`, `""` and `0` are falsy. -/
def JsVal.truthy : JsVal → Bool
  | .undef => false
  | .boolV b => b
  | .strV s => !s.isEmpty
  | .numV n => n != 0

/-- The string a JS value coerces to when assigned to `textContent` or passed
through `new Error(...)` / template literals (`String(v)`). -/
def JsVal.toDisplay : JsVal → String
  | .undef => "undefined"
  | .boolV true => "true"
  | .boolV false => "false"
  | .strV s => s
  | .numV n => toString n

/-- JS `a || b`: the left operand when truthy, otherwise the right one
(used at `handleError(data.status || data.error)`). -/
def jsOr (a b : JsVal) : JsVal :=
  if a.truthy then a else b

/-- JS `String.prototype.trim()` as applied to the value of the input field: strips
leading and trailing whitespace.  (Defined structurally over the character list
so concrete instances evaluate; the library `String.trim` agrees but is
defined by well-founded recursion.) -/
def jsTrim (s : String) : String :=
  ⟨((s.data.dropWhile Char.isWhitespace).reverse.dropWhile Char.isWhitespace).reverse⟩

/-- The DOM state the script reads and writes: the download button
(`disabled`, `textContent`), the vertical progress bar (`style.height` and
whether `classList` holds `complete`), the percent text, and the status box
(`textContent`/`innerHTML` and `className`). -/
structure UIState where
  btnDisabled : Bool
  btnText : String
  barHeight : String
  barComplete : Bool
  progressText : String
  statusContent : String
  statusClass : String
deriving DecidableEq

/-- A network request issued by the script: `POST /download` with the trimmed
url as payload, or `GET /progress/{downloadId}`. -/
inductive Request where
  | download (url : String)
  | progress (downloadId : String)
deriving DecidableEq

/-- Whole-app state: the UI, the `pollInterval` variable (holding the id of the
last installed interval, `none` while still `undefined`), the ids of interval
timers currently scheduled, a counter supplying fresh timer ids, and the log of
network requests issued so far. -/
structure AppState where
  ui : UIState
  timerVar : Option Nat
  activeTimers : List Nat
  nextTimerId : Nat
  requests : List Request
deriving DecidableEq

/-- Outcome of an awaited `fetch` + `res.json()`: the parsed payload (plus
transport status where the script reads it), or the message of a thrown exception. -/
inductive FetchResult (α : Type) where
  | ok (v : α)
  | exn (msg : String)
deriving DecidableEq

/-- Payload of the `POST /download` response as the script reads it. -/
structure DownloadData where
  error : JsVal
  download_id : String
deriving DecidableEq

/-- Payload of a `GET /progress/{id}` response as the script reads it.
`progress` is the numeric percentage. -/
structure PollData where
  error : JsVal
  progress : Int
  status : JsVal
  file_name : JsVal
deriving DecidableEq

/-- `handleError(msg)`: renders `msg` with error presentation and restores the
download button to its enabled, ready state. -/
def handleError (msg : String) (s : AppState) : AppState :=
  { s with ui := { s.ui with
      statusContent := msg,
      statusClass := "status-box error",
      btnText := "Download",
      btnDisabled := false } }

/-- `clearInterval(pollInterval)`: cancels the timer whose id the variable
holds, a no-op while the variable is still `undefined`.  The variable itself
keeps its value. -/
def clearIntervalVar (s : AppState) : AppState :=
  match s.timerVar with
  | none => s
  | some t => { s with activeTimers := s.activeTimers.filter (fun x => x ≠ t) }

/-- `pollInterval = setInterval(...)`: schedules a fresh timer and stores its
id in the variable. -/
def setIntervalPoll (s : AppState) : AppState :=
  { s with
      timerVar := some s.nextTimerId,
      activeTimers := s.activeTimers ++ [s.nextTimerId],
      nextTimerId := s.nextTimerId + 1 }

/-- The timer held by `pollInterval` is still scheduled, i.e. further poll
ticks of the current session will fire. -/
def AppState.pollActive (s : AppState) : Bool :=
  match s.timerVar with
  | none => false
  | some t => s.activeTimers.contains t

/-- The UI exactly as the click handler resets it before contacting the
backend (`// Reset UI state` block of the source). -/
def resetUI : UIState :=
  { btnDisabled := true,
    btnText := "Downloading...",
    barHeight := "0%",
    barComplete := false,
    progressText := "0%",
    statusContent := "Connecting to server...",
    statusClass := "status-box" }

/-- The unconditional part of a valid-url click: reset the UI and issue the
`POST /download` request carrying the trimmed url. -/
def resetStep (url : String) (s : AppState) : AppState :=
  { s with ui := resetUI, requests := s.requests ++ [Request.download url] }

/-- Continuation of the click handler once the `/download` round trip settles:
a thrown exception is routed to `handleError`; a payload with a truthy `error`
field is thrown (`new Error(data.error)`) and likewise routed with the coerced
message; otherwise the old interval (if any) is cleared and a fresh polling
interval is installed. -/
def initCont (resp : FetchResult DownloadData) (s : AppState) : AppState :=
  match resp with
  | .exn msg => handleError msg s
  | .ok data =>
      if data.error.truthy then
        handleError data.error.toDisplay s
      else
        setIntervalPoll (clearIntervalVar s)

/-- The `downloadBtn` click listener.  `rawUrl` is the value of the input field,
`resp` the outcome of the `/download` round trip (unused when validation fails
before any request is made). -/
def clickHandler (rawUrl : String) (resp : FetchResult DownloadData) (s : AppState) : AppState :=
  let url := jsTrim rawUrl
  if url = "" then
    { s with ui := { s.ui with
        statusContent := "Please enter a valid URL.",
        statusClass := "status-box error" } }
  else
    initCont resp (resetStep url s)

/-- Recording the `GET /progress/{downloadId}` request a poll tick issues. -/
def pollRecord (downloadId : String) (s : AppState) : AppState :=
  { s with requests := s.requests ++ [Request.progress downloadId] }

/-- The unconditional render of a non-error poll response: bar height and
percent text from `data.progress`, status line from `data.status`. -/
def pollRenderProgress (d : PollData) (s : AppState) : AppState :=
  { s with ui := { s.ui with
      barHeight := toString d.progress ++ "%",
      progressText := toString d.progress ++ "%",
      statusContent := d.status.toDisplay } }

/-- The completion branch: cancel the interval, mark the bar complete, restore
the button, and render the success banner naming `data.file_name`. -/
def pollComplete (d : PollData) (s : AppState) : AppState :=
  let s2 := clearIntervalVar s
  { s2 with ui := { s2.ui with
      barComplete := true,
      btnText := "Download",
      btnDisabled := false,
      statusContent :=
        "Success! Saved to downloads as:<br><strong>" ++ d.file_name.toDisplay ++ "</strong>",
      statusClass := "status-box success" } }

/-- One tick of `pollProgress(downloadId)`: the status request is issued, then
the response (or exception) is handled exactly as in the source: a thrown
exception cancels the interval and reports a lost connection; `error === true`
or a non-200 transport status cancels the interval and reports
`data.status || data.error`; otherwise progress is rendered and the
dual-condition completion check (`percent >= 100 &&
data.status === "Download Complete!"`) may terminate the session. -/
def pollStep (downloadId : String) (res : FetchResult (Nat × PollData)) (s : AppState) : AppState :=
  let s0 := pollRecord downloadId s
  match res with
  | .exn _ =>
      handleError "Connection to server lost. Retrying manually req." (clearIntervalVar s0)
  | .ok (st, data) =>
      if data.error = JsVal.boolV true ∨ st ≠ 200 then
        handleError (jsOr data.status data.error).toDisplay (clearIntervalVar s0)
      else
        let s1 := pollRenderProgress data s0
        if data.progress ≥ 100 ∧ data.status = JsVal.strV "Download Complete!" then
          pollComplete data s1
        else
          s1

/-- Drives the interval: each scheduled tick consumes the next transport
outcome, as long as the timer of the session is still scheduled. -/
def runPolls (downloadId : String) (resps : List (FetchResult (Nat × PollData))) (s : AppState) :
    AppState :=
  match resps with
  | [] => s
  | r :: rest =>
      if s.pollActive then runPolls downloadId rest (pollStep downloadId r s)
      else s

/-- Number of `GET /progress/...` requests in a request log. -/
def countProgressReqs (l : List Request) : Nat :=
  (l.filter (fun r => match r with | .progress _ => true | _ => false)).length

/-- A plausible page-load state: button enabled, empty rendering, no timer
installed, no request issued yet. -/
def initialState : AppState :=
  { ui := { btnDisabled := false, btnText := "Download", barHeight := "0%",
            barComplete := false, progressText := "0%",
            statusContent := "", statusClass := "status-box" },
    timerVar := none, activeTimers := [], nextTimerId := 0, requests := [] }

/-- The state right after a successful initiation from `initialState`: one
polling timer (id 0) scheduled, button disabled, session id `"id1"`. -/
def pollingState : AppState :=
  clickHandler "http://example.com"
    (FetchResult.ok { error := JsVal.undef, download_id := "id1" }) initialState

/-- The poll responses of the three-step Strategy B scenario, followed
by a fourth tick that must never be consumed once polling has stopped. -/
def c4Responses : List (FetchResult (Nat × PollData)) :=
  [ FetchResult.ok (200, { error := JsVal.undef, progress := 10,
                           status := JsVal.strV "Downloading", file_name := JsVal.undef }),
    FetchResult.ok (200, { error := JsVal.undef, progress := 55,
                           status := JsVal.strV "Downloading", file_name := JsVal.undef }),
    FetchResult.ok (200, { error := JsVal.undef, progress := 100,
                           status := JsVal.strV "Download Complete!",
                           file_name := JsVal.strV "v.mp4" }),
    FetchResult.ok (200, { error := JsVal.undef, progress := 100,
                           status := JsVal.strV "Download Complete!",
                           file_name := JsVal.strV "other" }) ]

/-- Modelled from the spec: payload of the Strategy A `POST /prepare`
response.  Strategy A (metadata-first + native stream handoff) is described in
the spec but has no implementation under src/, which contains only the
Strategy B polling client. -/
structure PrepareData where
  download_id : String
  file_name : String
  quality : String
  num_segments : Nat
deriving DecidableEq

/-- Modelled from the spec: one observable event of the Strategy A driver —
a network request (prepare round trip, one-shot stream handoff, or a status
poll) or a render-sink update. -/
inductive TraceItem where
  | reqPrepare (url : String)
  | reqStream (downloadId : String)
  | reqPoll (downloadId : String)
  | sinkProgress (percent : Int)
  | sinkFileName (name : String)
  | sinkError (msg : String)
deriving DecidableEq

/-- Whether a trace event is a polling request. -/
def TraceItem.isPoll : TraceItem → Bool
  | .reqPoll _ => true
  | _ => false

/-- Modelled from the spec: the Strategy A driver, absent from src/.  Faithful
to the wording of the spec: after `initiate` succeeds with full metadata the driver
sets progress to the midpoint value 50, triggers the one-shot
navigation-style request to the stream endpoint for the session id, and —
tracking no further transfer progress — considers the session complete
immediately after the handoff is dispatched, setting progress to 100 and
rendering the final filename.  No status poll is ever scheduled. -/
def strategyAFlow (url : String) (resp : FetchResult PrepareData) : List TraceItem :=
  match resp with
  | .exn msg => [TraceItem.reqPrepare url, TraceItem.sinkError msg]
  | .ok d =>
      [TraceItem.reqPrepare url,
       TraceItem.sinkProgress 50,
       TraceItem.reqStream d.download_id,
       TraceItem.sinkProgress 100,
       TraceItem.sinkFileName d.file_name]

/-! ## Helper lemmas -/

theorem pollActive_ui_update (x : AppState) (u : UIState) :
    AppState.pollActive { x with ui := u } = x.pollActive := rfl

theorem pollActive_handleError (m : String) (s : AppState) :
    (handleError m s).pollActive = s.pollActive := rfl

theorem pollActive_pollRecord (downloadId : String) (s : AppState) :
    (pollRecord downloadId s).pollActive = s.pollActive := rfl

theorem pollActive_pollRenderProgress (d : PollData) (s : AppState) :
    (pollRenderProgress d s).pollActive = s.pollActive := rfl

theorem pollActive_clearIntervalVar (s : AppState) :
    (clearIntervalVar s).pollActive = false := by
  cases h : s.timerVar with
  | none => simp [clearIntervalVar, AppState.pollActive, h]
  | some t => simp [clearIntervalVar, AppState.pollActive, h, List.contains_iff_exists_mem_beq]

theorem pollActive_pollComplete (d : PollData) (s : AppState) :
    (pollComplete d s).pollActive = false := by
  have h : (pollComplete d s).pollActive = (clearIntervalVar s).pollActive := rfl
  rw [h, pollActive_clearIntervalVar]

theorem pollActive_setIntervalPoll (s : AppState) :
    (setIntervalPoll s).pollActive = true := by
  simp [setIntervalPoll, AppState.pollActive, List.contains_iff_exists_mem_beq]

theorem pollStep_exn (downloadId msg : String) (s : AppState) :
    pollStep downloadId (FetchResult.exn msg) s
      = handleError "Connection to server lost. Retrying manually req."
          (clearIntervalVar (pollRecord downloadId s)) := rfl

theorem pollStep_err (downloadId : String) (st : Nat) (d : PollData) (s : AppState)
    (h : d.error = JsVal.boolV true ∨ st ≠ 200) :
    pollStep downloadId (FetchResult.ok (st, d)) s
      = handleError (jsOr d.status d.error).toDisplay
          (clearIntervalVar (pollRecord downloadId s)) := by
  simp only [pollStep]
  rw [if_pos h]

theorem pollStep_normal (downloadId : String) (st : Nat) (d : PollData) (s : AppState)
    (h : ¬ (d.error = JsVal.boolV true ∨ st ≠ 200))
    (hc : ¬ (d.progress ≥ 100 ∧ d.status = JsVal.strV "Download Complete!")) :
    pollStep downloadId (FetchResult.ok (st, d)) s
      = pollRenderProgress d (pollRecord downloadId s) := by
  simp only [pollStep]
  rw [if_neg h, if_neg hc]

theorem pollStep_complete (downloadId : String) (st : Nat) (d : PollData) (s : AppState)
    (h : ¬ (d.error = JsVal.boolV true ∨ st ≠ 200))
    (hc : d.progress ≥ 100 ∧ d.status = JsVal.strV "Download Complete!") :
    pollStep downloadId (FetchResult.ok (st, d)) s
      = pollComplete d (pollRenderProgress d (pollRecord downloadId s)) := by
  simp only [pollStep]
  rw [if_neg h, if_pos hc]

theorem runPolls_inactive (downloadId : String) (resps : List (FetchResult (Nat × PollData)))
    (s : AppState) (h : s.pollActive = false) :
    runPolls downloadId resps s = s := by
  cases resps with
  | nil => rfl
  | cons r rest => simp [runPolls, h]

theorem runPolls_active_cons (downloadId : String) (r : FetchResult (Nat × PollData))
    (rest : List (FetchResult (Nat × PollData))) (s : AppState) (h : s.pollActive = true) :
    runPolls downloadId (r :: rest) s = runPolls downloadId rest (pollStep downloadId r s) := by
  simp [runPolls, h]

theorem clickHandler_empty (rawUrl : String) (resp : FetchResult DownloadData) (s : AppState)
    (h : jsTrim rawUrl = "") :
    clickHandler rawUrl resp s
      = { s with ui := { s.ui with
            statusContent := "Please enter a valid URL.",
            statusClass := "status-box error" } } := by
  simp only [clickHandler]
  rw [if_pos h]

theorem clickHandler_valid (rawUrl : String) (resp : FetchResult DownloadData) (s : AppState)
    (h : ¬ jsTrim rawUrl = "") :
    clickHandler rawUrl resp s = initCont resp (resetStep (jsTrim rawUrl) s) := by
  simp only [clickHandler]
  rw [if_neg h]

theorem initCont_exn (msg : String) (s : AppState) :
    initCont (FetchResult.exn msg) s = handleError msg s := rfl

theorem initCont_err (d : DownloadData) (s : AppState) (h : d.error.truthy = true) :
    initCont (FetchResult.ok d) s = handleError d.error.toDisplay s := by
  simp only [initCont]
  rw [if_pos h]

theorem initCont_ok (d : DownloadData) (s : AppState) (h : d.error.truthy = false) :
    initCont (FetchResult.ok d) s = setIntervalPoll (clearIntervalVar s) := by
  simp only [initCont]
  rw [if_neg (by simp [h])]

theorem ui_setIntervalPoll (s : AppState) : (setIntervalPoll s).ui = s.ui := rfl

theorem ui_clearIntervalVar (s : AppState) : (clearIntervalVar s).ui = s.ui := by
  cases h : s.timerVar with
  | none => simp [clearIntervalVar, h]
  | some t => simp [clearIntervalVar, h]

/-! ## Claims -/

/-- C1, counterexample to the claim as stated: during an active session a 200
poll response with progress 101 and status "Download Complete!" terminates
polling with the success rendering, although its reported progress does not
equal 100 — the completion check of the code is `percent >= 100`, so
"terminates with success only when the reported progress equals 100" is false
on the code. -/
theorem c1_counterexample :
    (pollStep "id1" (FetchResult.ok (200,
        { error := JsVal.undef, progress := 101,
          status := JsVal.strV "Download Complete!", file_name := JsVal.strV "v.mp4" }))
      pollingState).pollActive = false
    ∧ (pollStep "id1" (FetchResult.ok (200,
        { error := JsVal.undef, progress := 101,
          status := JsVal.strV "Download Complete!", file_name := JsVal.strV "v.mp4" }))
      pollingState).ui.statusClass = "status-box success"
    ∧ (101 : Int) ≠ 100 := by
  decide

/-- C1 (amended): during an active Strategy B session, a 200 poll response
whose error field is not the boolean `true` terminates polling with success
exactly when the reported progress is at least 100 and the status string
equals "Download Complete!"; in particular a poll response with progress 100
but any other status string (e.g. "Finalizing") does not terminate polling and
the next scheduled poll tick still runs. -/
theorem c1_completion_dual_condition (downloadId : String) (d : PollData) (s : AppState)
    (r : FetchResult (Nat × PollData)) (rs : List (FetchResult (Nat × PollData)))
    (hact : s.pollActive = true)
    (herr : d.error ≠ JsVal.boolV true) :
    ((pollStep downloadId (FetchResult.ok (200, d)) s).pollActive = false
      ↔ (d.progress ≥ 100 ∧ d.status = JsVal.strV "Download Complete!"))
    ∧ (¬ (d.progress ≥ 100 ∧ d.status = JsVal.strV "Download Complete!") →
        runPolls downloadId (r :: rs) (pollStep downloadId (FetchResult.ok (200, d)) s)
          = runPolls downloadId rs
              (pollStep downloadId r (pollStep downloadId (FetchResult.ok (200, d)) s))) := by
  have hcond : ¬ (d.error = JsVal.boolV true ∨ (200 : Nat) ≠ 200) := by
    simp [herr]
  by_cases hc : d.progress ≥ 100 ∧ d.status = JsVal.strV "Download Complete!"
  · refine ⟨?_, fun hnc => absurd hc hnc⟩
    rw [pollStep_complete _ _ _ _ hcond hc, pollActive_pollComplete]
    simp [hc]
  · refine ⟨?_, fun _ => ?_⟩
    · rw [pollStep_normal _ _ _ _ hcond hc, pollActive_pollRenderProgress,
        pollActive_pollRecord, hact]
      simp [hc]
    · apply runPolls_active_cons
      rw [pollStep_normal _ _ _ _ hcond hc, pollActive_pollRenderProgress,
        pollActive_pollRecord]
      exact hact

/-- Witness for C1: the "Finalizing at 100" instance — polling does not
terminate and the next tick is still processed. -/
theorem c1_completion_dual_condition_witness :
    ((pollStep "id1" (FetchResult.ok (200,
        { error := JsVal.undef, progress := 100,
          status := JsVal.strV "Finalizing", file_name := JsVal.undef }))
      pollingState).pollActive = false
      ↔ ((100 : Int) ≥ 100 ∧ JsVal.strV "Finalizing" = JsVal.strV "Download Complete!"))
    ∧ (¬ ((100 : Int) ≥ 100 ∧ JsVal.strV "Finalizing" = JsVal.strV "Download Complete!") →
        runPolls "id1" [FetchResult.exn "tick"]
            (pollStep "id1" (FetchResult.ok (200,
              { error := JsVal.undef, progress := 100,
                status := JsVal.strV "Finalizing", file_name := JsVal.undef }))
              pollingState)
          = runPolls "id1" []
              (pollStep "id1" (FetchResult.exn "tick")
                (pollStep "id1" (FetchResult.ok (200,
                  { error := JsVal.undef, progress := 100,
                    status := JsVal.strV "Finalizing", file_name := JsVal.undef }))
                  pollingState))) :=
  c1_completion_dual_condition "id1"
    { error := JsVal.undef, progress := 100,
      status := JsVal.strV "Finalizing", file_name := JsVal.undef }
    pollingState (FetchResult.exn "tick") [] (by decide) (by decide)

/-- C2: starting a new session (a click with a valid url whose initiation
succeeds) cancels the previously scheduled polling timer before installing the
new one: from any state whose single scheduled timer is the one held by
`pollInterval`, the resulting state has exactly the freshly installed timer
scheduled — one active polling timer. -/
theorem c2_single_timer (rawUrl : String) (d : DownloadData) (s : AppState) (t : Nat)
    (hurl : ¬ jsTrim rawUrl = "")
    (herr : d.error.truthy = false)
    (hvar : s.timerVar = some t)
    (hact : s.activeTimers = [t]) :
    (clickHandler rawUrl (FetchResult.ok d) s).activeTimers = [s.nextTimerId]
    ∧ (clickHandler rawUrl (FetchResult.ok d) s).timerVar = some s.nextTimerId
    ∧ (clickHandler rawUrl (FetchResult.ok d) s).pollActive = true := by
  rw [clickHandler_valid _ _ _ hurl, initCont_ok _ _ herr]
  refine ⟨?_, ?_, pollActive_setIntervalPoll _⟩
  · simp [setIntervalPoll, clearIntervalVar, resetStep, hvar, hact]
  · simp [setIntervalPoll, clearIntervalVar, resetStep, hvar]

/-- Witness for C2: a second click while `pollingState` is polling leaves
exactly the fresh timer (id 1) scheduled. -/
theorem c2_single_timer_witness :
    (clickHandler "http://other.com"
        (FetchResult.ok { error := JsVal.undef, download_id := "id2" })
        pollingState).activeTimers = [pollingState.nextTimerId]
    ∧ (clickHandler "http://other.com"
        (FetchResult.ok { error := JsVal.undef, download_id := "id2" })
        pollingState).timerVar = some pollingState.nextTimerId
    ∧ (clickHandler "http://other.com"
        (FetchResult.ok { error := JsVal.undef, download_id := "id2" })
        pollingState).pollActive = true :=
  c2_single_timer "http://other.com" { error := JsVal.undef, download_id := "id2" }
    pollingState 0 (by decide) (by decide) (by decide) (by decide)

/-- C3: a poll response carrying the boolean error flag or a non-200 transport
status terminates polling — the timer is cancelled, no further poll is ever
processed (`runPolls` is a fixpoint on the resulting state), and the message
`data.status || data.error` is rendered with error presentation. -/
theorem c3_poll_error_terminates (downloadId : String) (st : Nat) (d : PollData)
    (s : AppState) (resps : List (FetchResult (Nat × PollData)))
    (hterm : d.error = JsVal.boolV true ∨ st ≠ 200) :
    (pollStep downloadId (FetchResult.ok (st, d)) s).pollActive = false
    ∧ (pollStep downloadId (FetchResult.ok (st, d)) s).ui.statusClass = "status-box error"
    ∧ (pollStep downloadId (FetchResult.ok (st, d)) s).ui.statusContent
        = (jsOr d.status d.error).toDisplay
    ∧ (pollStep downloadId (FetchResult.ok (st, d)) s).ui.btnDisabled = false
    ∧ runPolls downloadId resps (pollStep downloadId (FetchResult.ok (st, d)) s)
        = pollStep downloadId (FetchResult.ok (st, d)) s := by
  have h1 : (pollStep downloadId (FetchResult.ok (st, d)) s).pollActive = false := by
    rw [pollStep_err _ _ _ _ hterm, pollActive_handleError]
    exact pollActive_clearIntervalVar _
  refine ⟨h1, ?_, ?_, ?_, runPolls_inactive _ _ _ h1⟩
  · rw [pollStep_err _ _ _ _ hterm]; rfl
  · rw [pollStep_err _ _ _ _ hterm]; rfl
  · rw [pollStep_err _ _ _ _ hterm]; rfl

/-- Witness for C3: the `{error:true, status:"Invalid URL"}` poll terminates
polling and renders "Invalid URL" as an error. -/
theorem c3_poll_error_terminates_witness :
    (pollStep "id1" (FetchResult.ok (200,
        { error := JsVal.boolV true, progress := 0,
          status := JsVal.strV "Invalid URL", file_name := JsVal.undef }))
      pollingState).pollActive = false
    ∧ (pollStep "id1" (FetchResult.ok (200,
        { error := JsVal.boolV true, progress := 0,
          status := JsVal.strV "Invalid URL", file_name := JsVal.undef }))
      pollingState).ui.statusClass = "status-box error"
    ∧ (pollStep "id1" (FetchResult.ok (200,
        { error := JsVal.boolV true, progress := 0,
          status := JsVal.strV "Invalid URL", file_name := JsVal.undef }))
      pollingState).ui.statusContent = "Invalid URL"
    ∧ (pollStep "id1" (FetchResult.ok (200,
        { error := JsVal.boolV true, progress := 0,
          status := JsVal.strV "Invalid URL", file_name := JsVal.undef }))
      pollingState).ui.btnDisabled = false
    ∧ runPolls "id1" [FetchResult.exn "tick"]
          (pollStep "id1" (FetchResult.ok (200,
            { error := JsVal.boolV true, progress := 0,
              status := JsVal.strV "Invalid URL", file_name := JsVal.undef }))
            pollingState)
        = pollStep "id1" (FetchResult.ok (200,
            { error := JsVal.boolV true, progress := 0,
              status := JsVal.strV "Invalid URL", file_name := JsVal.undef }))
            pollingState :=
  c3_poll_error_terminates "id1" 200
    { error := JsVal.boolV true, progress := 0,
      status := JsVal.strV "Invalid URL", file_name := JsVal.undef }
    pollingState [FetchResult.exn "tick"] (Or.inl rfl)

/-- C4: for the Strategy B flow whose successive poll responses report
(10, "Downloading"), (55, "Downloading"), (100, "Download Complete!") — with a
fourth tick available that must not be consumed — exactly 3 poll requests are
issued, polling stops after the third, and the success banner names the
file_name carried by the final consumed poll response ("v.mp4"), with the
button restored. -/
theorem c4_exactly_three_polls :
    countProgressReqs (runPolls "id1" c4Responses pollingState).requests = 3
    ∧ (runPolls "id1" c4Responses pollingState).pollActive = false
    ∧ (runPolls "id1" c4Responses pollingState).ui.statusContent
        = "Success! Saved to downloads as:<br><strong>v.mp4</strong>"
    ∧ (runPolls "id1" c4Responses pollingState).ui.statusClass = "status-box success"
    ∧ (runPolls "id1" c4Responses pollingState).ui.btnDisabled = false := by
  decide

/-- C5: on every terminal or error path of a session — poll-reported boolean
error or non-200 status, completion, and a transport exception during
initiation or during polling — the download button is restored to its enabled
state; on a transport exception during polling an error message is also
rendered. -/
theorem c5_action_control_restored (downloadId rawUrl msg : String) (st : Nat)
    (d dc : PollData) (di : DownloadData) (s1 s2 s3 s4 s5 : AppState)
    (hterm : d.error = JsVal.boolV true ∨ st ≠ 200)
    (hcomp : dc.progress ≥ 100 ∧ dc.status = JsVal.strV "Download Complete!")
    (hurl : ¬ jsTrim rawUrl = "")
    (hdi : di.error.truthy = true) :
    (pollStep downloadId (FetchResult.ok (st, d)) s1).ui.btnDisabled = false
    ∧ (pollStep downloadId (FetchResult.ok (200, dc)) s2).ui.btnDisabled = false
    ∧ (pollStep downloadId (FetchResult.exn msg) s3).ui.btnDisabled = false
    ∧ (pollStep downloadId (FetchResult.exn msg) s3).ui.statusClass = "status-box error"
    ∧ (pollStep downloadId (FetchResult.exn msg) s3).ui.statusContent
        = "Connection to server lost. Retrying manually req."
    ∧ (clickHandler rawUrl (FetchResult.exn msg) s4).ui.btnDisabled = false
    ∧ (clickHandler rawUrl (FetchResult.ok di) s5).ui.btnDisabled = false := by
  refine ⟨?_, ?_, ?_, ?_, ?_, ?_, ?_⟩
  · rw [pollStep_err _ _ _ _ hterm]; rfl
  · by_cases hce : dc.error = JsVal.boolV true ∨ (200 : Nat) ≠ 200
    · rw [pollStep_err _ _ _ _ hce]; rfl
    · rw [pollStep_complete _ _ _ _ hce hcomp]; rfl
  · rw [pollStep_exn]; rfl
  · rw [pollStep_exn]; rfl
  · rw [pollStep_exn]; rfl
  · rw [clickHandler_valid _ _ _ hurl, initCont_exn]; rfl
  · rw [clickHandler_valid _ _ _ hurl, initCont_err _ _ hdi]; rfl

/-- Witness for C5: each terminal path at concrete inputs, from the active
polling state. -/
theorem c5_action_control_restored_witness :
    (pollStep "id1" (FetchResult.ok (404,
        { error := JsVal.undef, progress := 0,
          status := JsVal.undef, file_name := JsVal.undef }))
      pollingState).ui.btnDisabled = false
    ∧ (pollStep "id1" (FetchResult.ok (200,
        { error := JsVal.undef, progress := 100,
          status := JsVal.strV "Download Complete!", file_name := JsVal.strV "f.mp4" }))
      pollingState).ui.btnDisabled = false
    ∧ (pollStep "id1" (FetchResult.exn "boom") pollingState).ui.btnDisabled = false
    ∧ (pollStep "id1" (FetchResult.exn "boom") pollingState).ui.statusClass
        = "status-box error"
    ∧ (pollStep "id1" (FetchResult.exn "boom") pollingState).ui.statusContent
        = "Connection to server lost. Retrying manually req."
    ∧ (clickHandler "http://x" (FetchResult.exn "boom") pollingState).ui.btnDisabled = false
    ∧ (clickHandler "http://x"
        (FetchResult.ok { error := JsVal.strV "bad url", download_id := "" })
        pollingState).ui.btnDisabled = false :=
  c5_action_control_restored "id1" "http://x" "boom" 404
    { error := JsVal.undef, progress := 0, status := JsVal.undef, file_name := JsVal.undef }
    { error := JsVal.undef, progress := 100,
      status := JsVal.strV "Download Complete!", file_name := JsVal.strV "f.mp4" }
    { error := JsVal.strV "bad url", download_id := "" }
    pollingState pollingState pollingState pollingState pollingState
    (Or.inr (by decide)) (by decide) (by decide) (by decide)

/-- C6, counterexample to the claim as stated: an initiation with a valid url
that succeeds (Strategy B handing over to polling) leaves the download button
disabled — the action control is NOT re-enabled on the success exit path of
the initiation, contradicting "re-enabled in all exit paths of the initiation
— success, failure, or exception". -/
theorem c6_counterexample :
    (clickHandler "http://example.com"
      (FetchResult.ok { error := JsVal.undef, download_id := "id1" })
      initialState).ui.btnDisabled = true := by
  decide

/-- C6 (amended): for every initiation with a valid (non-empty after trimming)
url, all UI-observable state is reset to the initial values (progress bar and
percent text at 0%, completion styling removed, neutral status line,
disabled-action styling) before the network request is sent, unconditionally —
the handler is precisely the reset-and-request step followed by the response
continuation; the action control is re-enabled on the failure and exception
exit paths, while on the success path it stays disabled for the duration of
the polling session. -/
theorem c6_reset_unconditional (rawUrl : String) (resp : FetchResult DownloadData)
    (s : AppState) (hurl : ¬ jsTrim rawUrl = "") :
    clickHandler rawUrl resp s = initCont resp (resetStep (jsTrim rawUrl) s)
    ∧ (resetStep (jsTrim rawUrl) s).ui = resetUI
    ∧ resetUI.barHeight = "0%" ∧ resetUI.progressText = "0%"
    ∧ resetUI.barComplete = false ∧ resetUI.btnDisabled = true
    ∧ resetUI.statusClass = "status-box"
    ∧ (resetStep (jsTrim rawUrl) s).requests
        = s.requests ++ [Request.download (jsTrim rawUrl)]
    ∧ (∀ msg, (clickHandler rawUrl (FetchResult.exn msg) s).ui.btnDisabled = false)
    ∧ (∀ d : DownloadData, d.error.truthy = true →
        (clickHandler rawUrl (FetchResult.ok d) s).ui.btnDisabled = false)
    ∧ (∀ d : DownloadData, d.error.truthy = false →
        (clickHandler rawUrl (FetchResult.ok d) s).ui.btnDisabled = true) := by
  refine ⟨clickHandler_valid _ _ _ hurl, rfl, rfl, rfl, rfl, rfl, rfl, rfl, ?_, ?_, ?_⟩
  · intro msg
    rw [clickHandler_valid _ _ _ hurl, initCont_exn]; rfl
  · intro d hd
    rw [clickHandler_valid _ _ _ hurl, initCont_err _ _ hd]; rfl
  · intro d hd
    rw [clickHandler_valid _ _ _ hurl, initCont_ok _ _ hd]
    rw [show (setIntervalPoll (clearIntervalVar (resetStep (jsTrim rawUrl) s))).ui
          = (clearIntervalVar (resetStep (jsTrim rawUrl) s)).ui from rfl,
      ui_clearIntervalVar]
    rfl

/-- Witness for C6: a concrete valid-url initiation, with all three response
shapes exercised. -/
theorem c6_reset_unconditional_witness :
    clickHandler "http://example.com" (FetchResult.exn "boom") initialState
        = initCont (FetchResult.exn "boom") (resetStep (jsTrim "http://example.com") initialState)
    ∧ (resetStep (jsTrim "http://example.com") initialState).ui = resetUI
    ∧ resetUI.barHeight = "0%" ∧ resetUI.progressText = "0%"
    ∧ resetUI.barComplete = false ∧ resetUI.btnDisabled = true
    ∧ resetUI.statusClass = "status-box"
    ∧ (resetStep (jsTrim "http://example.com") initialState).requests
        = initialState.requests ++ [Request.download (jsTrim "http://example.com")]
    ∧ (∀ msg, (clickHandler "http://example.com" (FetchResult.exn msg)
          initialState).ui.btnDisabled = false)
    ∧ (∀ d : DownloadData, d.error.truthy = true →
        (clickHandler "http://example.com" (FetchResult.ok d)
          initialState).ui.btnDisabled = false)
    ∧ (∀ d : DownloadData, d.error.truthy = false →
        (clickHandler "http://example.com" (FetchResult.ok d)
          initialState).ui.btnDisabled = true) :=
  c6_reset_unconditional "http://example.com" (FetchResult.exn "boom") initialState (by decide)

/-- C7: for every input that is empty or whitespace-only after trimming, no
network request is issued, no timer state changes, and the validation error
message "Please enter a valid URL." is rendered with error presentation. -/
theorem c7_empty_input (rawUrl : String) (resp : FetchResult DownloadData) (s : AppState)
    (h : jsTrim rawUrl = "") :
    (clickHandler rawUrl resp s).requests = s.requests
    ∧ (clickHandler rawUrl resp s).ui.statusContent = "Please enter a valid URL."
    ∧ (clickHandler rawUrl resp s).ui.statusClass = "status-box error"
    ∧ (clickHandler rawUrl resp s).activeTimers = s.activeTimers
    ∧ (clickHandler rawUrl resp s).timerVar = s.timerVar := by
  rw [clickHandler_empty _ _ _ h]
  exact ⟨rfl, rfl, rfl, rfl, rfl⟩

/-- Witness for C7: a whitespace-only input issues no request. -/
theorem c7_empty_input_witness :
    (clickHandler "   " (FetchResult.ok { error := JsVal.undef, download_id := "id1" })
        initialState).requests = initialState.requests
    ∧ (clickHandler "   " (FetchResult.ok { error := JsVal.undef, download_id := "id1" })
        initialState).ui.statusContent = "Please enter a valid URL."
    ∧ (clickHandler "   " (FetchResult.ok { error := JsVal.undef, download_id := "id1" })
        initialState).ui.statusClass = "status-box error"
    ∧ (clickHandler "   " (FetchResult.ok { error := JsVal.undef, download_id := "id1" })
        initialState).activeTimers = initialState.activeTimers
    ∧ (clickHandler "   " (FetchResult.ok { error := JsVal.undef, download_id := "id1" })
        initialState).timerVar = initialState.timerVar :=
  c7_empty_input "   " (FetchResult.ok { error := JsVal.undef, download_id := "id1" })
    initialState (by decide)

/-- C8 (against the spec-modelled Strategy A driver, absent from src/): for
every successful Strategy A flow the observable trace is — prepare request,
sink shows progress 50, the one-shot stream handoff for the returned
session id, sink shows progress 100 and then the returned filename — and it
contains no polling request at all. -/
theorem c8_strategyA_flow (url : String) (d : PrepareData) :
    strategyAFlow url (FetchResult.ok d)
      = [TraceItem.reqPrepare url, TraceItem.sinkProgress 50,
         TraceItem.reqStream d.download_id, TraceItem.sinkProgress 100,
         TraceItem.sinkFileName d.file_name]
    ∧ ((strategyAFlow url (FetchResult.ok d)).filter (fun t => t.isPoll)).length = 0 := by
  exact ⟨rfl, rfl⟩

/-- C9: error-field handling is asymmetric between the two phases.  During
initiation any truthy error value (here a non-empty string) aborts the session
as an error without installing a timer; during polling a 200 response whose
error field is a truthy string is handled exactly as if the field were absent
— it is a normal progress update and polling continues. -/
theorem c9_error_asymmetry (rawUrl downloadId em : String) (si sp : AppState)
    (di : DownloadData) (d : PollData)
    (hurl : ¬ jsTrim rawUrl = "")
    (hdi : di.error.truthy = true)
    (_hem : ¬ em = "")
    (herr : d.error = JsVal.strV em)
    (hact : sp.pollActive = true)
    (hnc : ¬ (d.progress ≥ 100 ∧ d.status = JsVal.strV "Download Complete!")) :
    (clickHandler rawUrl (FetchResult.ok di) si).ui.statusClass = "status-box error"
    ∧ (clickHandler rawUrl (FetchResult.ok di) si).ui.statusContent = di.error.toDisplay
    ∧ (clickHandler rawUrl (FetchResult.ok di) si).activeTimers = si.activeTimers
    ∧ pollStep downloadId (FetchResult.ok (200, d)) sp
        = pollStep downloadId (FetchResult.ok (200,
            { error := JsVal.undef, progress := d.progress,
              status := d.status, file_name := d.file_name })) sp
    ∧ (pollStep downloadId (FetchResult.ok (200, d)) sp).pollActive = true
    ∧ (pollStep downloadId (FetchResult.ok (200, d)) sp).ui.progressText
        = toString d.progress ++ "%" := by
  have hcond : ¬ (d.error = JsVal.boolV true ∨ (200 : Nat) ≠ 200) := by
    simp [herr]
  have hcond2 : ¬ (({ error := JsVal.undef, progress := d.progress,
                      status := d.status, file_name := d.file_name } : PollData).error
        = JsVal.boolV true
      ∨ (200 : Nat) ≠ 200) := by
    simp
  refine ⟨?_, ?_, ?_, ?_, ?_, ?_⟩
  · rw [clickHandler_valid _ _ _ hurl, initCont_err _ _ hdi]; rfl
  · rw [clickHandler_valid _ _ _ hurl, initCont_err _ _ hdi]; rfl
  · rw [clickHandler_valid _ _ _ hurl, initCont_err _ _ hdi]; rfl
  · rw [pollStep_normal _ _ _ _ hcond hnc, pollStep_normal _ _ _ _ hcond2 hnc]
    rfl
  · rw [pollStep_normal _ _ _ _ hcond hnc, pollActive_pollRenderProgress,
      pollActive_pollRecord]
    exact hact
  · rw [pollStep_normal _ _ _ _ hcond hnc]; rfl

/-- Witness for C9: initiation with error "bad url" aborts; a 200 poll with
error "oops" at progress 42 renders 42% and keeps polling. -/
theorem c9_error_asymmetry_witness :
    (clickHandler "http://x"
        (FetchResult.ok { error := JsVal.strV "bad url", download_id := "" })
        initialState).ui.statusClass = "status-box error"
    ∧ (clickHandler "http://x"
        (FetchResult.ok { error := JsVal.strV "bad url", download_id := "" })
        initialState).ui.statusContent = "bad url"
    ∧ (clickHandler "http://x"
        (FetchResult.ok { error := JsVal.strV "bad url", download_id := "" })
        initialState).activeTimers = initialState.activeTimers
    ∧ pollStep "id1" (FetchResult.ok (200,
          { error := JsVal.strV "oops", progress := 42,
            status := JsVal.strV "Downloading", file_name := JsVal.undef })) pollingState
        = pollStep "id1" (FetchResult.ok (200,
            { error := JsVal.undef, progress := 42,
              status := JsVal.strV "Downloading", file_name := JsVal.undef })) pollingState
    ∧ (pollStep "id1" (FetchResult.ok (200,
          { error := JsVal.strV "oops", progress := 42,
            status := JsVal.strV "Downloading", file_name := JsVal.undef }))
        pollingState).pollActive = true
    ∧ (pollStep "id1" (FetchResult.ok (200,
          { error := JsVal.strV "oops", progress := 42,
            status := JsVal.strV "Downloading", file_name := JsVal.undef }))
        pollingState).ui.progressText = toString (42 : Int) ++ "%" :=
  c9_error_asymmetry "http://x" "id1" "oops" initialState pollingState
    { error := JsVal.strV "bad url", download_id := "" }
    { error := JsVal.strV "oops", progress := 42,
      status := JsVal.strV "Downloading", file_name := JsVal.undef }
    (by decide) (by decide) (by decide) (by decide) (by decide) (by decide)

/-- C10: the completion check accepts any reported progress greater than or
equal to 100: a 200 poll response with status "Download Complete!" and any
progress at least 100 (for instance above 100) terminates polling with the
success rendering. -/
theorem c10_at_least_100_completes (downloadId : String) (p : Int) (fn : JsVal)
    (s : AppState) (hp : p ≥ 100) :
    (pollStep downloadId (FetchResult.ok (200,
        { error := JsVal.undef, progress := p,
          status := JsVal.strV "Download Complete!", file_name := fn })) s).pollActive = false
    ∧ (pollStep downloadId (FetchResult.ok (200,
        { error := JsVal.undef, progress := p,
          status := JsVal.strV "Download Complete!", file_name := fn }))
        s).ui.statusClass = "status-box success"
    ∧ (pollStep downloadId (FetchResult.ok (200,
        { error := JsVal.undef, progress := p,
          status := JsVal.strV "Download Complete!", file_name := fn }))
        s).ui.barComplete = true
    ∧ (pollStep downloadId (FetchResult.ok (200,
        { error := JsVal.undef, progress := p,
          status := JsVal.strV "Download Complete!", file_name := fn }))
        s).ui.btnDisabled = false := by
  have hcond : ¬ (({ error := JsVal.undef, progress := p,
                     status := JsVal.strV "Download Complete!",
                     file_name := fn } : PollData).error = JsVal.boolV true
      ∨ (200 : Nat) ≠ 200) := by
    simp
  rw [pollStep_complete _ _ _ _ hcond ⟨hp, rfl⟩]
  exact ⟨pollActive_pollComplete _ _, rfl, rfl, rfl⟩

/-- Witness for C10: progress 150 with the completion status terminates with
success. -/
theorem c10_at_least_100_completes_witness :
    (pollStep "id1" (FetchResult.ok (200,
        { error := JsVal.undef, progress := 150,
          status := JsVal.strV "Download Complete!",
          file_name := JsVal.strV "v.mp4" })) pollingState).pollActive = false
    ∧ (pollStep "id1" (FetchResult.ok (200,
        { error := JsVal.undef, progress := 150,
          status := JsVal.strV "Download Complete!",
          file_name := JsVal.strV "v.mp4" })) pollingState).ui.statusClass
        = "status-box success"
    ∧ (pollStep "id1" (FetchResult.ok (200,
        { error := JsVal.undef, progress := 150,
          status := JsVal.strV "Download Complete!",
          file_name := JsVal.strV "v.mp4" })) pollingState).ui.barComplete = true
    ∧ (pollStep "id1" (FetchResult.ok (200,
        { error := JsVal.undef, progress := 150,
          status := JsVal.strV "Download Complete!",
          file_name := JsVal.strV "v.mp4" })) pollingState).ui.btnDisabled = false :=
  c10_at_least_100_completes "id1" 150 (JsVal.strV "v.mp4") pollingState (by decide)
